import Mathlib

/-!
Shallow embedding of the Shoppin search screen
(`src/app/(tabs)/index.tsx`, latest revision; the earlier revision
`src/unnamed/part_000` shares every function modelled here except the
error-message format, which is noted at `errMsg`).

React `useState`/`useRef` cells become fields of `SessionState`; each
event handler becomes a pure function from the pre-state (plus the
network's behaviour, supplied as an explicit `FetchOutcome` argument,
and the fresh uuid that `uuidv4()` would generate) to the post-state,
together with the search request it issued, if any.
-/

namespace Shoppin

/-! ### JavaScript string primitives used by the component -/

/-- Uppercase hex digit, as used by `encodeURIComponent` percent-escapes. -/
def hexDigitUpper (n : Nat) : Char :=
  if n < 10 then Char.ofNat (48 + n) else Char.ofNat (55 + n)

/-- Lowercase hex digit, as used by `JSON.stringify` \u-escapes. -/
def hexDigitLower (n : Nat) : Char :=
  if n < 10 then Char.ofNat (48 + n) else Char.ofNat (87 + n)

/-- UTF-8 bytes of a character (code points are below 0x110000). -/
def utf8Bytes (c : Char) : List Nat :=
  let n := c.toNat
  if n < 0x80 then [n]
  else if n < 0x800 then
    [0xC0 ||| (n >>> 6), 0x80 ||| (n &&& 0x3F)]
  else if n < 0x10000 then
    [0xE0 ||| (n >>> 12), 0x80 ||| ((n >>> 6) &&& 0x3F), 0x80 ||| (n &&& 0x3F)]
  else
    [0xF0 ||| (n >>> 18), 0x80 ||| ((n >>> 12) &&& 0x3F),
     0x80 ||| ((n >>> 6) &&& 0x3F), 0x80 ||| (n &&& 0x3F)]

/-- Characters `encodeURIComponent` leaves unescaped:
`A-Z a-z 0-9 - _ . ! ~ * ' ( )` (the apostrophe is tested by code point). -/
def isUnreservedChar (c : Char) : Bool :=
  c.isAlpha || c.isDigit || c = '-' || c = '_' || c = '.' || c = '!' ||
  c = '~' || c = '*' || c.toNat = 39 || c = '(' || c = ')'

def percentEncodeByte (b : Nat) : String :=
  "%" ++ String.singleton (hexDigitUpper (b / 16)) ++
    String.singleton (hexDigitUpper (b % 16))

/-- JavaScript `encodeURIComponent`. -/
def encodeURIComponent (s : String) : String :=
  String.join (s.data.map fun c =>
    if isUnreservedChar c then String.singleton c
    else String.join ((utf8Bytes c).map percentEncodeByte))

/-- One character inside a `JSON.stringify`d string literal. -/
def jsonEscapeChar (c : Char) : String :=
  if c = '"' then "\\\""
  else if c = '\\' then "\\\\"
  else if c.toNat = 10 then "\\n"
  else if c.toNat = 13 then "\\r"
  else if c.toNat = 9 then "\\t"
  else if c.toNat = 8 then "\\b"
  else if c.toNat = 12 then "\\f"
  else if c.toNat < 32 then
    "\\u00" ++ String.singleton (hexDigitLower (c.toNat / 16)) ++
      String.singleton (hexDigitLower (c.toNat % 16))
  else String.singleton c

/-- `JSON.stringify` of one string. -/
def jsonQuote (s : String) : String :=
  "\"" ++ String.join (s.data.map jsonEscapeChar) ++ "\""

/-- `JSON.stringify` of an array of strings (used for the `brand` field). -/
def jsonStringifyStrList (xs : List String) : String :=
  "[" ++ String.intercalate "," (xs.map jsonQuote) ++ "]"

/-- A character of the JavaScript WhiteSpace / LineTerminator sets
stripped by `String.prototype.trim` (space, tab, LF, VT, FF, CR, NBSP,
BOM, the Unicode space separators, and the line/paragraph separators). -/
def isJsSpace (c : Char) : Bool :=
  c.toNat = 32 || c.toNat = 9 || c.toNat = 10 || c.toNat = 11 ||
  c.toNat = 12 || c.toNat = 13 || c.toNat = 0xA0 || c.toNat = 0x1680 ||
  (0x2000 ≤ c.toNat && c.toNat ≤ 0x200A) || c.toNat = 0x2028 ||
  c.toNat = 0x2029 || c.toNat = 0x202F || c.toNat = 0x205F ||
  c.toNat = 0x3000 || c.toNat = 0xFEFF

/-- JavaScript `s.trim()`: strip leading and trailing whitespace. -/
def jsTrim (s : String) : String :=
  ⟨((s.data.dropWhile isJsSpace).reverse.dropWhile isJsSpace).reverse⟩

/-! ### Data model (from `index.tsx`) -/

/-- `interface Product` of `index.tsx` (the superset revision); optional
fields become `Option`, `string | null` collapses `undefined`/`null`. -/
structure Product where
  id : Int
  image : String
  brand_name : Option String := none
  title : String
  price : String
  discounted_price : Option String := none
  description : Option String := none
  link : Option String := none
  primary_images : Option (List String) := none
  variant_value_1 : Option String := none
  variant_value_2 : Option String := none
  color_text_hash : Option String := none
deriving DecidableEq

/-- `ImagePicker.ImagePickerAsset`, reduced to the one field the search
code reads (`asset.uri`). -/
structure ImageAsset where
  uri : String
deriving DecidableEq

/-- Parsed JSON body of a search response:
`{ search_id?: string, data?: Product[] }` (both fields may be absent). -/
structure SearchJson where
  search_id : Option String := none
  data : Option (List Product) := none
deriving DecidableEq

/-- Parsed JSON body of the detail endpoint: `{ data?: Product[] }`. -/
structure DetailJson where
  data : Option (List Product) := none
deriving DecidableEq

/-- Parsed JSON body of the similar-items endpoint:
`{ similar_product_results?: Product[] }`. -/
structure SimilarJson where
  similar_product_results : Option (List Product) := none
deriving DecidableEq

/-- A JavaScript value appearing in a request-body object literal. -/
inductive JsVal where
  | str (s : String)
  | num (n : Int)
  | undef
  | null
deriving DecidableEq

/-- `String(v)` on the values above. -/
def jsValToString : JsVal → String
  | .str s => s
  | .num n => toString n
  | .undef => "undefined"
  | .null => "null"

/-- Skipped by `toUrlEncoded`'s filter (`v !== undefined && v !== null`). -/
def JsVal.isSkipped : JsVal → Bool
  | .undef => true
  | .null => true
  | _ => false

/-- An entry appended to a `FormData` (file blobs carry their filename). -/
inductive FormVal where
  | str (s : String)
  | file (filename : String)
deriving DecidableEq

/-- An HTTP request issued by the component. -/
inductive Request where
  | encoded (fields : List (String × JsVal))
  | multipart (fields : List (String × FormVal))
  | jsonPost (url : String) (body : String)
deriving DecidableEq

/-- How the network answers one search `fetch`: the promise rejects (or a
later step such as `res.json()` throws) with message `msg`; or the
response arrives non-2xx with the given `statusText`; or it succeeds and
parses to `json`. -/
inductive FetchOutcome where
  | transportError (msg : String)
  | httpError (statusText : String)
  | success (json : SearchJson)
deriving DecidableEq

/-- Outcome of the detail-endpoint fetch inside `openDetail`. -/
inductive DetailOutcome where
  | transportError (msg : String)
  | httpError (statusText : String)
  | success (json : DetailJson)
deriving DecidableEq

/-- Outcome of the similar-items fetch inside `openDetail`. -/
inductive SimilarOutcome where
  | transportError (msg : String)
  | httpError (statusText : String)
  | success (json : SimilarJson)
deriving DecidableEq

/-- The component's mutable state: every `useState` cell the search logic
touches, plus the `useRef` session token `lastSearchId`. -/
structure SessionState where
  query : String := ""
  picked : Option ImageAsset := none
  selectedBrands : List String := []
  priceMin : Option Int := none
  priceMax : Option Int := none
  rawResults : List Product := []
  visible : List Product := []
  loading : Bool := false
  error : Option String := none
  lastSearchId : Option String := none
  detailProduct : Option Product := none
  detailImgIdx : Nat := 0
  similarProducts : List Product := []
deriving DecidableEq

def initState : SessionState := {}

/-! ### Constants -/

def SEARCH_ENDPOINT : String :=
  "https://backend.staging.shoppin.app/shopix/api/v2/search"

def DETAIL_ENDPOINT : String :=
  "https://backend.staging.shoppin.app/shopix/api/v2/search_product_by_uid"

def SIMILAR_ENDPOINT : String :=
  "https://backend.staging.shoppin.app/shopix/api/v2/search_similar_products"

def PAGE_SIZE : Nat := 20

/-! ### Pure helpers from the source -/

/-- `getNumColumns` (identical in both revisions). -/
def getNumColumns (w : Int) : Nat :=
  if w ≥ 1600 then 5
  else if w ≥ 1200 then 4
  else if w ≥ 900 then 3
  else if w ≥ 700 then 2
  else 1

/-- `toUrlEncoded`: drop `undefined`/`null` values, percent-encode
`k=String(v)` pairs, join with `&`. The object literal is modelled as an
ordered key/value list (object spread keeps insertion order and the keys
involved never collide). -/
def toUrlEncoded (fields : List (String × JsVal)) : String :=
  String.intercalate "&"
    ((fields.filter fun kv => !kv.2.isSkipped).map fun kv =>
      encodeURIComponent kv.1 ++ "=" ++ encodeURIComponent (jsValToString kv.2))

/-! ### Session-state operations -/

/-- `wipe`: clear both result lists and install a fresh uuid as the
session token. -/
def wipe (s : SessionState) (freshId : String) : SessionState :=
  { s with rawResults := [], visible := [], lastSearchId := some freshId }

/-- `appendJson`: adopt the server-echoed `search_id` when truthy
(JS `if (json?.search_id)` rejects the empty string), then append the
page's `data` (`json?.data ?? []`) to both result lists. -/
def appendJson (s : SessionState) (json : SearchJson) : SessionState :=
  { s with
    lastSearchId :=
      match json.search_id with
      | some sid => if sid = "" then s.lastSearchId else some sid
      | none => s.lastSearchId,
    rawResults := s.rawResults ++ json.data.getD [],
    visible := s.visible ++ json.data.getD [] }

/-- `filterFields`: `brand` (a `JSON.stringify`d array) only when the
brand list is non-empty (`selectedBrands.length &&` spreads nothing on
0), `price_min`/`price_max` whenever defined (`!== undefined`, so 0 is
sent). -/
def filterFields (s : SessionState) : List (String × JsVal) :=
  (if s.selectedBrands.length ≠ 0 then
    [("brand", JsVal.str (jsonStringifyStrList s.selectedBrands))]
  else []) ++
  (match s.priceMin with
   | some n => [("price_min", JsVal.num n)]
   | none => []) ++
  (match s.priceMax with
   | some n => [("price_max", JsVal.num n)]
   | none => [])

/-- The object literal passed to `postEncoded` by `fetchText`. -/
def textRequestFields (s : SessionState) (offset : Nat) : List (String × JsVal) :=
  [("search_type", JsVal.str "text_search"),
   ("query", JsVal.str (jsTrim s.query)),
   ("offset", JsVal.num offset),
   ("limit", JsVal.num PAGE_SIZE),
   ("search_id",
     match s.lastSearchId with
     | some sid => JsVal.str sid
     | none => JsVal.undef)] ++
  filterFields s

/-- The `FormData` built by `fetchImage`: every filter value passes
through `String(v)`, the session token through `as string`
(`FormData.append` stringifies `undefined`). -/
def imageFormFields (s : SessionState) (offset : Nat) : List (String × FormVal) :=
  [("search_type", FormVal.str "image_search"),
   ("offset", FormVal.str (toString offset)),
   ("limit", FormVal.str (toString (PAGE_SIZE : Int))),
   ("coordinates", FormVal.str "\x7b\"x\":5,\"y\":5,\"width\":90,\"height\":90\x7d"),
   ("search_id", FormVal.str (s.lastSearchId.getD "undefined"))] ++
  (filterFields s).map (fun kv => (kv.1, FormVal.str (jsValToString kv.2))) ++
  [("file", FormVal.file "img.jpg")]

/-- `e.message || 'Network error'` (an empty message is falsy). -/
def errMsg (m : String) : String :=
  if m = "" then "Network error" else m

/-- The part of `fetchText` before `await postEncoded(...)`: the guard on
a blank query, the offset-0 `wipe`, `setLoading(true)`/`setError(null)`,
and the request body. `none` means the handler returned without touching
anything. -/
def fetchTextDispatch (s : SessionState) (offset : Nat) (freshId : String) :
    Option (SessionState × List (String × JsVal)) :=
  if jsTrim s.query = "" then none
  else
    let s1 := if offset = 0 then wipe s freshId else s
    let s2 := { s1 with loading := true, error := none }
    some (s2, textRequestFields s2 offset)

/-- The continuation after the `await`: merge on success, set the error
string on failure, clear `loading` in `finally` (this code is identical
in `fetchText` and `fetchImage`). -/
def searchResume (s : SessionState) (net : FetchOutcome) : SessionState :=
  match net with
  | .success json => { appendJson s json with loading := false }
  | .httpError statusText =>
      { s with error := some (errMsg statusText), loading := false }
  | .transportError msg =>
      { s with error := some (errMsg msg), loading := false }

/-- `fetchText(offset)` run to completion with network behaviour `net`;
also returns the request that was sent (`none` on the blank-query guard;
on a transport error it is the attempted request). -/
def fetchText (s : SessionState) (offset : Nat) (freshId : String)
    (net : FetchOutcome) : SessionState × Option Request :=
  match fetchTextDispatch s offset freshId with
  | none => (s, none)
  | some (s2, fields) => (searchResume s2 net, some (Request.encoded fields))

/-- The part of `fetchImage` before its `await postMultipart(...)`
(the `!asset` guard cannot fire: the asset is passed explicitly). -/
def fetchImageDispatch (s : SessionState) (offset : Nat) (freshId : String) :
    SessionState × List (String × FormVal) :=
  let s1 := if offset = 0 then wipe s freshId else s
  let s2 := { s1 with loading := true, error := none }
  (s2, imageFormFields s2 offset)

/-- `fetchImage(asset, offset)` run to completion (a failure of the
asset-blob fetch is covered by `FetchOutcome.transportError`). -/
def fetchImage (s : SessionState) (asset : ImageAsset) (offset : Nat)
    (freshId : String) (net : FetchOutcome) : SessionState × Option Request :=
  let (s2, fields) := fetchImageDispatch s offset freshId
  (searchResume s2 net, some (Request.multipart fields))

/-- `handleEndReached`: bail out unless fewer items are visible than
accumulated; otherwise paginate in the modality chosen by `picked`,
from `offset = rawResults.length`. -/
def handleEndReached (s : SessionState) (freshId : String)
    (net : FetchOutcome) : SessionState × Option Request :=
  if s.visible.length ≥ s.rawResults.length then (s, none)
  else
    match s.picked with
    | some a => fetchImage s a s.rawResults.length freshId net
    | none => fetchText s s.rawResults.length freshId net

/-- `openDetail(hash)`: detail fetch, adopt `detJson?.data?.[0]` when
present, then the similar-items fetch
(`simJson?.similar_product_results ?? []`); any failure lands in the
shared catch. Returns the new state and the JSON requests issued. -/
def openDetail (s : SessionState) (hash : String)
    (det : DetailOutcome) (sim : SimilarOutcome) :
    SessionState × List Request :=
  let s0 := { s with loading := true, error := none }
  let detReq := Request.jsonPost DETAIL_ENDPOINT
    ("\x7b\"color_hashes\":[" ++ jsonQuote hash ++ "]\x7d")
  match det with
  | .transportError m =>
      ({ s0 with error := some (errMsg m), loading := false }, [detReq])
  | .httpError st =>
      ({ s0 with error := some (errMsg st), loading := false }, [detReq])
  | .success dj =>
    let s1 :=
      match (dj.data.getD []).head? with
      | some first => { s0 with detailProduct := some first, detailImgIdx := 0 }
      | none => s0
    let simReq := Request.jsonPost SIMILAR_ENDPOINT
      ("\x7b\"color_text_hash\":" ++ jsonQuote hash ++ "\x7d")
    match sim with
    | .transportError m =>
        ({ s1 with error := some (errMsg m), loading := false }, [detReq, simReq])
    | .httpError st =>
        ({ s1 with error := some (errMsg st), loading := false }, [detReq, simReq])
    | .success sj =>
        ({ s1 with similarProducts := sj.similar_product_results.getD [],
                   loading := false }, [detReq, simReq])

/-! ### Event-level transition system -/

/-- One user/network event, for reasoning about reachable states.
`resume` is the continuation of an earlier search dispatch whose
response arrives only now (the code keeps no handle tying a response to
the session that issued it). -/
inductive Op where
  | setQuery (q : String)
  | textSearch (offset : Nat) (freshId : String) (net : FetchOutcome)
  | pickImage (asset : ImageAsset) (freshId : String) (net : FetchOutcome)
  | imageSearch (offset : Nat) (freshId : String) (net : FetchOutcome)
  | endReached (freshId : String) (net : FetchOutcome)
  | detail (hash : String) (det : DetailOutcome) (sim : SimilarOutcome)
  | setBrands (bs : List String)
  | setPriceMinOp (v : Option Int)
  | setPriceMaxOp (v : Option Int)
  | resume (net : FetchOutcome)
deriving DecidableEq

/-- State transition of one event (requests discarded). -/
def step (s : SessionState) : Op → SessionState
  | .setQuery q => { s with query := q }
  | .textSearch off fid net => (fetchText s off fid net).1
  | .pickImage a fid net => (fetchImage { s with picked := some a } a 0 fid net).1
  | .imageSearch off fid net =>
      match s.picked with
      | some a => (fetchImage s a off fid net).1
      | none => s
  | .endReached fid net => (handleEndReached s fid net).1
  | .detail h det sim => (openDetail s h det sim).1
  | .setBrands bs => { s with selectedBrands := bs }
  | .setPriceMinOp v => { s with priceMin := v }
  | .setPriceMaxOp v => { s with priceMax := v }
  | .resume net => searchResume s net

def run (s : SessionState) (ops : List Op) : SessionState :=
  ops.foldl step s

/-- Left fold of `appendJson` over a sequence of page responses: the
merge loop of one session. -/
def mergePages (s : SessionState) (pages : List SearchJson) : SessionState :=
  pages.foldl appendJson s


/-! ### Shared lemmas -/

theorem mergePages_rawResults (pages : List SearchJson) (s : SessionState) :
    (mergePages s pages).rawResults
      = s.rawResults ++ (pages.map fun p => p.data.getD []).flatten := by
  induction pages generalizing s with
  | nil => simp [mergePages]
  | cons p ps ih =>
      simp only [mergePages, List.foldl_cons] at ih ⊢
      rw [ih (appendJson s p)]
      simp [appendJson]

theorem mergePages_visible (pages : List SearchJson) (s : SessionState) :
    (mergePages s pages).visible
      = s.visible ++ (pages.map fun p => p.data.getD []).flatten := by
  induction pages generalizing s with
  | nil => simp [mergePages]
  | cons p ps ih =>
      simp only [mergePages, List.foldl_cons] at ih ⊢
      rw [ih (appendJson s p)]
      simp [appendJson]

/-- C1: within one session (which starts with a `wipe`), the accumulated
list after merging any sequence of successful pages is exactly the
concatenation of the pages' `data` sequences in merge order (no
reordering, no de-duplication — repeated ids pass through verbatim), and
its length is the sum of the pages' item counts; in general each merge
appends on the right of whatever was accumulated before. -/
theorem C1_accumulation_is_concat (s : SessionState) (freshId : String)
    (pages : List SearchJson) :
    (mergePages s pages).rawResults
        = s.rawResults ++ (pages.map fun p => p.data.getD []).flatten ∧
    (mergePages (wipe s freshId) pages).rawResults
        = (pages.map fun p => p.data.getD []).flatten ∧
    (mergePages (wipe s freshId) pages).rawResults.length
        = (pages.map fun p => (p.data.getD []).length).sum := by
  refine ⟨mergePages_rawResults pages s, ?_, ?_⟩
  · rw [mergePages_rawResults]
    simp [wipe]
  · rw [mergePages_rawResults]
    simp only [wipe, List.nil_append, List.length_flatten, List.map_map]
    rfl

/-- C9: the column count is a pure function of the width with the fixed
breakpoints `<700→1, <900→2, <1200→3, <1600→4, else 5`; in particular
1650→5, 1300→4, 950→3, 750→2, 500→1, 800→2 and 600→1. -/
theorem C9_column_breakpoints (w : Int) :
    (w < 700 → getNumColumns w = 1) ∧
    (700 ≤ w → w < 900 → getNumColumns w = 2) ∧
    (900 ≤ w → w < 1200 → getNumColumns w = 3) ∧
    (1200 ≤ w → w < 1600 → getNumColumns w = 4) ∧
    (1600 ≤ w → getNumColumns w = 5) ∧
    getNumColumns 1650 = 5 ∧ getNumColumns 1300 = 4 ∧
    getNumColumns 950 = 3 ∧ getNumColumns 750 = 2 ∧
    getNumColumns 500 = 1 ∧ getNumColumns 800 = 2 ∧
    getNumColumns 600 = 1 := by
  refine ⟨?_, ?_, ?_, ?_, ?_, by decide, by decide, by decide, by decide,
    by decide, by decide, by decide⟩ <;>
    (intros; unfold getNumColumns; split_ifs <;> omega)

theorem C9_column_breakpoints_witness :
    getNumColumns 650 = 1 ∧ getNumColumns 1000 = 3 := by
  exact ⟨((C9_column_breakpoints 650).1) (by decide),
         ((C9_column_breakpoints 1000).2.2.1) (by decide) (by decide)⟩

/-- C8: when the query trims to the empty string, `fetchText` returns
before doing anything: no request is issued and the state is returned
unchanged (this is silent — in particular no error is set). -/
theorem C8_blank_query_noop (s : SessionState) (offset : Nat)
    (freshId : String) (net : FetchOutcome) (h : jsTrim s.query = "") :
    fetchText s offset freshId net = (s, none) := by
  simp [fetchText, fetchTextDispatch, h]

/-- A state with a whitespace-only query, prior results, a session token
and a visible error, to exercise the blank-query guard. -/
def blankQueryState : SessionState :=
  { initState with
    query := "   ",
    rawResults := [{ id := 7, image := "img7", title := "t7", price := "99" }],
    visible := [{ id := 7, image := "img7", title := "t7", price := "99" }],
    lastSearchId := some "sid-old",
    error := some "old error" }

theorem C8_blank_query_noop_witness :
    fetchText blankQueryState 0 "uuid-w" (.success {}) = (blankQueryState, none) :=
  C8_blank_query_noop blankQueryState 0 "uuid-w" (.success {}) (by decide)


theorem fetchText_of_blank (s : SessionState) (offset : Nat)
    (freshId : String) (net : FetchOutcome) (h : jsTrim s.query = "") :
    fetchText s offset freshId net = (s, none) := by
  simp [fetchText, fetchTextDispatch, h]

theorem fetchText_of_nonblank (s : SessionState) (offset : Nat)
    (freshId : String) (net : FetchOutcome) (h : ¬ jsTrim s.query = "") :
    fetchText s offset freshId net =
      (searchResume
        { (if offset = 0 then wipe s freshId else s) with
            loading := true, error := none } net,
       some (Request.encoded (textRequestFields
        { (if offset = 0 then wipe s freshId else s) with
            loading := true, error := none } offset))) := by
  simp [fetchText, fetchTextDispatch, h]

theorem fetchImage_eq (s : SessionState) (a : ImageAsset) (offset : Nat)
    (freshId : String) (net : FetchOutcome) :
    fetchImage s a offset freshId net =
      (searchResume
        { (if offset = 0 then wipe s freshId else s) with
            loading := true, error := none } net,
       some (Request.multipart (imageFormFields
        { (if offset = 0 then wipe s freshId else s) with
            loading := true, error := none } offset))) := by
  simp [fetchImage, fetchImageDispatch]

theorem searchResume_visible_eq_raw (s : SessionState) (net : FetchOutcome)
    (h : s.visible = s.rawResults) :
    (searchResume s net).visible = (searchResume s net).rawResults := by
  cases net <;> simp [searchResume, appendJson, h]

theorem fetchText_visible_eq_raw (s : SessionState) (offset : Nat)
    (freshId : String) (net : FetchOutcome) (h : s.visible = s.rawResults) :
    (fetchText s offset freshId net).1.visible
      = (fetchText s offset freshId net).1.rawResults := by
  by_cases hq : jsTrim s.query = ""
  · rw [fetchText_of_blank s offset freshId net hq]
    exact h
  · rw [fetchText_of_nonblank s offset freshId net hq]
    apply searchResume_visible_eq_raw
    by_cases ho : offset = 0 <;> simp [ho, wipe, h]

theorem fetchImage_visible_eq_raw (s : SessionState) (a : ImageAsset)
    (offset : Nat) (freshId : String) (net : FetchOutcome)
    (h : s.visible = s.rawResults) :
    (fetchImage s a offset freshId net).1.visible
      = (fetchImage s a offset freshId net).1.rawResults := by
  rw [fetchImage_eq]
  apply searchResume_visible_eq_raw
  by_cases ho : offset = 0 <;> simp [ho, wipe, h]

theorem openDetail_visible_eq_raw (s : SessionState) (hash : String)
    (det : DetailOutcome) (sim : SimilarOutcome)
    (h : s.visible = s.rawResults) :
    (openDetail s hash det sim).1.visible
      = (openDetail s hash det sim).1.rawResults := by
  unfold openDetail
  cases det with
  | transportError m => simpa
  | httpError st => simpa
  | success dj =>
      cases hh : (dj.data.getD []).head? <;> cases sim <;> simp [hh, h]

theorem step_visible_eq_raw (s : SessionState) (op : Op)
    (h : s.visible = s.rawResults) :
    (step s op).visible = (step s op).rawResults := by
  cases op with
  | setQuery q => simpa [step]
  | textSearch off fid net => exact fetchText_visible_eq_raw s off fid net h
  | pickImage a fid net => exact fetchImage_visible_eq_raw _ a 0 fid net h
  | imageSearch off fid net =>
      cases hp : s.picked with
      | some a => simpa [step, hp] using fetchImage_visible_eq_raw s a off fid net h
      | none => simpa [step, hp]
  | endReached fid net =>
      simp only [step]
      unfold handleEndReached
      split
      · exact h
      · split
        · exact fetchImage_visible_eq_raw s _ _ fid net h
        · exact fetchText_visible_eq_raw s _ fid net h
  | detail hsh det sim => exact openDetail_visible_eq_raw s hsh det sim h
  | setBrands bs => simpa [step]
  | setPriceMinOp v => simpa [step]
  | setPriceMaxOp v => simpa [step]
  | resume net => exact searchResume_visible_eq_raw s net h

theorem run_visible_eq_raw (ops : List Op) (s : SessionState)
    (h : s.visible = s.rawResults) :
    (run s ops).visible = (run s ops).rawResults := by
  induction ops generalizing s with
  | nil => exact h
  | cons op ops ih =>
      simp only [run, List.foldl_cons] at ih ⊢
      exact ih (step s op) (step_visible_eq_raw s op h)

/-- C10: in any state reachable from the initial state by any sequence of
events (searches, pagination, detail fetches, filter/query edits, and
late-arriving responses), `visible` equals `rawResults` element for
element — the reset clears both and every merge appends the same page to
both — so no reachable state has fewer visible than accumulated items. -/
theorem C10_visible_mirrors_accumulated (ops : List Op) :
    (run initState ops).visible = (run initState ops).rawResults ∧
    ¬ (run initState ops).visible.length < (run initState ops).rawResults.length := by
  have h := run_visible_eq_raw ops initState rfl
  exact ⟨h, by rw [h]; omega⟩


/-- C2: starting a new text or image search (offset 0), from any prior
session state, first clears both result lists and installs the fresh
uuid as the session token — visible in the issued request's `search_id`
field — so after a successful page-0 merge the result lists hold exactly
page 0's items. -/
theorem C2_new_search_resets (s : SessionState) (freshId : String)
    (json : SearchJson) (a : ImageAsset) (hq : ¬ jsTrim s.query = "") :
    ((fetchText s 0 freshId (.success json)).1.rawResults = json.data.getD [] ∧
     (fetchText s 0 freshId (.success json)).1.visible = json.data.getD [] ∧
     (∃ fields, (fetchText s 0 freshId (.success json)).2
         = some (Request.encoded fields) ∧
       List.lookup "search_id" fields = some (JsVal.str freshId))) ∧
    ((fetchImage s a 0 freshId (.success json)).1.rawResults = json.data.getD [] ∧
     (fetchImage s a 0 freshId (.success json)).1.visible = json.data.getD [] ∧
     (∃ fields, (fetchImage s a 0 freshId (.success json)).2
         = some (Request.multipart fields) ∧
       List.lookup "search_id" fields = some (FormVal.str freshId))) := by
  constructor
  · rw [fetchText_of_nonblank s 0 freshId _ hq]
    exact ⟨rfl, rfl, _, rfl, rfl⟩
  · rw [fetchImage_eq]
    exact ⟨rfl, rfl, _, rfl, rfl⟩

/-- State and page for the C2 witness: a prior session with one
accumulated item and a non-blank query. -/
def c2_prior : SessionState :=
  { initState with
    query := "red dress",
    rawResults := [{ id := 1, image := "i1", title := "t1", price := "100" }],
    visible := [{ id := 1, image := "i1", title := "t1", price := "100" }],
    lastSearchId := some "sid-old" }

def c2_page0 : SearchJson :=
  { search_id := some "srv-1",
    data := some [{ id := 2, image := "i2", title := "t2", price := "200" },
                  { id := 3, image := "i3", title := "t3", price := "300" }] }

theorem C2_new_search_resets_witness :
    ¬ jsTrim c2_prior.query = "" ∧
    (fetchText c2_prior 0 "uuid-f" (.success c2_page0)).1.rawResults
      = c2_page0.data.getD [] ∧
    (fetchImage c2_prior ⟨"file:photo"⟩ 0 "uuid-f" (.success c2_page0)).1.rawResults
      = c2_page0.data.getD [] := by
  refine ⟨by decide, ?_, ?_⟩
  · exact (C2_new_search_resets c2_prior "uuid-f" c2_page0 ⟨"file:photo"⟩ (by decide)).1.1
  · exact (C2_new_search_resets c2_prior "uuid-f" c2_page0 ⟨"file:photo"⟩ (by decide)).2.1

/-- The page answering the first session's page-0 request. -/
def stalePage : SearchJson :=
  { search_id := some "srv-A",
    data := some [{ id := 101, image := "imgA", title := "tA", price := "10" }] }

def c3_start : SessionState := { initState with query := "shoes" }

/-- State right after session A's page-0 dispatch (request in flight). -/
def c3_afterDispatchA : SessionState :=
  match fetchTextDispatch c3_start 0 "uuid-A" with
  | some (s, _) => s
  | none => c3_start

/-- The user types a different query and submits a new search while A's
response is still outstanding: session B's page-0 dispatch wipes and
installs `uuid-B`. -/
def c3_afterDispatchB : SessionState :=
  match fetchTextDispatch { c3_afterDispatchA with query := "boots" } 0 "uuid-B" with
  | some (s, _) => s
  | none => c3_afterDispatchA

/-- Session A's response arrives only now; its continuation runs on the
current state. -/
def c3_staleArrival : SessionState :=
  searchResume c3_afterDispatchB (.success stalePage)

/-- C3 fails on the code: the merge step (`appendJson`, reached through
`searchResume`) performs no sessionId/generation comparison, so after a
new session (`uuid-B`) has started, the stale response of the replaced
session is merged into the new session's accumulated results — which
were empty — and its stale `search_id` `srv-A` is adopted as the current
session token. -/
theorem C3_stale_response_is_merged :
    c3_afterDispatchB.rawResults = [] ∧
    c3_afterDispatchB.lastSearchId = some "uuid-B" ∧
    c3_staleArrival.rawResults = stalePage.data.getD [] ∧
    c3_staleArrival.rawResults ≠ [] ∧
    c3_staleArrival.lastSearchId = some "srv-A" := by decide


/-- A state with one accumulated but zero visible items, no picked asset
and a blank query. -/
def c4_gap_state : SessionState :=
  { initState with
    rawResults := [{ id := 201, image := "i201", title := "t201", price := "5" }],
    visible := [],
    lastSearchId := some "sid-c4" }

/-- C4 as stated is false: at `c4_gap_state`, `visibleResults` is shorter
than `accumulatedResults`, yet `handleEndReached` issues no request and
changes nothing — `fetchText`'s blank-query guard fires first, so
"whenever visible < accumulated it issues the next page" does not hold. -/
theorem C4_loadMore_counterexample :
    c4_gap_state.visible.length < c4_gap_state.rawResults.length ∧
    handleEndReached c4_gap_state "uuid-c4"
        (.success { data := some [] }) = (c4_gap_state, none) := by decide

/-- C4 (amended): `handleEndReached` is a no-op whenever
`visible.length ≥ rawResults.length`. Otherwise it paginates without
resetting — `offset = rawResults.length`, `limit = 20`, the current
session token and the current filters — in the modality selected by
`picked` (image search whenever an asset is picked, text otherwise,
regardless of which modality produced the current results), except that
with no picked asset and a blank query it is again a silent no-op. -/
theorem C4_loadMore_amended (s : SessionState) (freshId : String)
    (net : FetchOutcome) :
    (s.visible.length ≥ s.rawResults.length →
      handleEndReached s freshId net = (s, none)) ∧
    (s.visible.length < s.rawResults.length →
      (∀ a, s.picked = some a →
        (∃ fields, (handleEndReached s freshId net).2
            = some (Request.multipart fields) ∧
          List.lookup "offset" fields
            = some (FormVal.str (toString s.rawResults.length)) ∧
          List.lookup "limit" fields = some (FormVal.str "20") ∧
          List.lookup "search_id" fields
            = some (FormVal.str (s.lastSearchId.getD "undefined")) ∧
          (∃ pre, fields = pre ++
            (filterFields s).map (fun kv => (kv.1, FormVal.str (jsValToString kv.2))) ++
            [("file", FormVal.file "img.jpg")])) ∧
        (∀ json, net = .success json →
          (handleEndReached s freshId net).1.rawResults
              = s.rawResults ++ json.data.getD [] ∧
          (handleEndReached s freshId net).1.visible
              = s.visible ++ json.data.getD [])) ∧
      (s.picked = none → ¬ jsTrim s.query = "" →
        (∃ fields, (handleEndReached s freshId net).2
            = some (Request.encoded fields) ∧
          List.lookup "offset" fields
            = some (JsVal.num s.rawResults.length) ∧
          List.lookup "limit" fields = some (JsVal.num 20) ∧
          List.lookup "search_id" fields
            = some (match s.lastSearchId with
                    | some sid => JsVal.str sid
                    | none => JsVal.undef) ∧
          (∃ pre, fields = pre ++ filterFields s)) ∧
        (∀ json, net = .success json →
          (handleEndReached s freshId net).1.rawResults
              = s.rawResults ++ json.data.getD [] ∧
          (handleEndReached s freshId net).1.visible
              = s.visible ++ json.data.getD [])) ∧
      (s.picked = none → jsTrim s.query = "" →
        handleEndReached s freshId net = (s, none))) := by
  constructor
  · intro hge
    simp [handleEndReached, hge]
  · intro hlt
    have hnz : ¬ s.rawResults.length = 0 := by omega
    have hnlt : ¬ s.visible.length ≥ s.rawResults.length := by omega
    refine ⟨?_, ?_, ?_⟩
    · intro a hp
      have he : handleEndReached s freshId net
          = fetchImage s a s.rawResults.length freshId net := by
        simp [handleEndReached, hnlt, hp]
      rw [he, fetchImage_eq]
      simp only [hnz, if_false]
      constructor
      · exact ⟨_, rfl, rfl, rfl, rfl, _, rfl⟩
      · rintro json rfl
        exact ⟨rfl, rfl⟩
    · intro hp hq
      have he : handleEndReached s freshId net
          = fetchText s s.rawResults.length freshId net := by
        simp [handleEndReached, hnlt, hp]
      rw [he, fetchText_of_nonblank s _ freshId net hq]
      simp only [hnz, if_false]
      constructor
      · exact ⟨_, rfl, rfl, rfl, rfl, _, rfl⟩
      · rintro json rfl
        exact ⟨rfl, rfl⟩
    · intro hp hq
      simp [handleEndReached, hnlt, hp, fetchText_of_blank s _ freshId net hq]

/-- A state paginating an image session: one accumulated item, none
visible yet, a picked asset. -/
def c4w_state : SessionState :=
  { initState with
    picked := some ⟨"file:photo9"⟩,
    rawResults := [{ id := 301, image := "i301", title := "t301", price := "7" }],
    visible := [],
    lastSearchId := some "sid-w4" }

def c4w_page : SearchJson :=
  { data := some [{ id := 302, image := "i302", title := "t302", price := "8" }] }

theorem C4_loadMore_amended_witness :
    handleEndReached initState "u0" (.success {}) = (initState, none) ∧
    (∃ fields, (handleEndReached c4w_state "u-w" (.success c4w_page)).2
        = some (Request.multipart fields) ∧
      List.lookup "offset" fields = some (FormVal.str "1") ∧
      List.lookup "search_id" fields = some (FormVal.str "sid-w4")) ∧
    (handleEndReached c4w_state "u-w" (.success c4w_page)).1.rawResults
      = c4w_state.rawResults ++ c4w_page.data.getD [] := by
  refine ⟨(C4_loadMore_amended initState "u0" (.success {})).1 (by decide), ?_, ?_⟩
  · obtain ⟨⟨fields, h1, h2, _, h4, _⟩, _⟩ :=
      ((C4_loadMore_amended c4w_state "u-w" (.success c4w_page)).2 (by decide)).1
        ⟨"file:photo9"⟩ rfl
    exact ⟨fields, h1, h2, h4⟩
  · exact (((C4_loadMore_amended c4w_state "u-w" (.success c4w_page)).2 (by decide)).1
      ⟨"file:photo9"⟩ rfl).2 c4w_page rfl |>.1


theorem errMsg_ne_empty (m : String) : errMsg m ≠ "" := by
  unfold errMsg
  split
  · decide
  · assumption

/-- C5: a failed search (transport error or non-2xx status) stores a
non-empty error message, clears `loading`, and leaves the accumulated
lists exactly as they stood after the preceding pages (empty when the
failure hit page 0, since the reset already ran); a subsequent
successful page-0 search on the resulting state — whose query is
unchanged — clears the error and populates the results. -/
theorem C5_failure_surfaces_error (s : SessionState) (a : ImageAsset)
    (offset : Nat) (freshId freshId2 st m : String) (json : SearchJson)
    (hq : ¬ jsTrim s.query = "") :
    ((fetchText s offset freshId (.httpError st)).1.error = some (errMsg st) ∧
     errMsg st ≠ "" ∧
     (fetchText s offset freshId (.httpError st)).1.loading = false ∧
     (fetchText s offset freshId (.httpError st)).1.rawResults
        = (if offset = 0 then [] else s.rawResults) ∧
     (fetchText s offset freshId (.httpError st)).1.visible
        = (if offset = 0 then [] else s.visible)) ∧
    ((fetchText s offset freshId (.transportError m)).1.error = some (errMsg m) ∧
     errMsg m ≠ "" ∧
     (fetchText s offset freshId (.transportError m)).1.loading = false ∧
     (fetchText s offset freshId (.transportError m)).1.rawResults
        = (if offset = 0 then [] else s.rawResults)) ∧
    ((fetchImage s a offset freshId (.httpError st)).1.error = some (errMsg st) ∧
     (fetchImage s a offset freshId (.httpError st)).1.loading = false ∧
     (fetchImage s a offset freshId (.httpError st)).1.rawResults
        = (if offset = 0 then [] else s.rawResults)) ∧
    ((fetchText (fetchText s 0 freshId (.httpError st)).1 0 freshId2
        (.success json)).1.error = none ∧
     (fetchText (fetchText s 0 freshId (.httpError st)).1 0 freshId2
        (.success json)).1.rawResults = json.data.getD [] ∧
     (fetchText s 0 freshId (.httpError st)).1.query = s.query) := by
  have hqf : ¬ jsTrim ((fetchText s 0 freshId (.httpError st)).1).query = "" := by
    rw [fetchText_of_nonblank s 0 freshId _ hq]
    simpa [searchResume, wipe] using hq
  refine ⟨?_, ?_, ?_, ?_⟩
  · rw [fetchText_of_nonblank s offset freshId _ hq]
    by_cases ho : offset = 0 <;> simp [ho, searchResume, wipe, errMsg_ne_empty]
  · rw [fetchText_of_nonblank s offset freshId _ hq]
    by_cases ho : offset = 0 <;> simp [ho, searchResume, wipe, errMsg_ne_empty]
  · rw [fetchImage_eq]
    by_cases ho : offset = 0 <;> simp [ho, searchResume, wipe]
  · rw [fetchText_of_nonblank _ 0 freshId2 _ hqf,
        fetchText_of_nonblank s 0 freshId _ hq]
    simp [searchResume, wipe, appendJson]

def c5_state : SessionState := { initState with query := "red dress" }

def c5_page : SearchJson :=
  { search_id := some "srv-5",
    data := some [{ id := 501, image := "i501", title := "t501", price := "45" }] }

theorem C5_failure_surfaces_error_witness :
    (fetchText c5_state 0 "u-5" (.httpError "Internal Server Error")).1.error
      = some "Internal Server Error" ∧
    (fetchText c5_state 0 "u-5" (.httpError "Internal Server Error")).1.rawResults
      = [] ∧
    (fetchText (fetchText c5_state 0 "u-5" (.httpError "Internal Server Error")).1
        0 "u-6" (.success c5_page)).1.error = none := by
  have h := C5_failure_surfaces_error c5_state ⟨"file:x"⟩ 0 "u-5" "u-6"
    "Internal Server Error" "m" c5_page (by decide)
  refine ⟨?_, ?_, h.2.2.2.1⟩
  · have h1 := h.1.1
    rwa [show errMsg "Internal Server Error" = "Internal Server Error" by decide] at h1
  · simpa using h.1.2.2.2.1

/-- The filter state of C6's concrete example. -/
def c6_state : SessionState :=
  { initState with
    query := "dress",
    selectedBrands := ["nike", "zara"],
    priceMin := some 1000,
    lastSearchId := some "sid-1" }

/-- C6: the request carries `brand` (the brand list as a JSON-array
string) exactly when the brand list is non-empty, `price_min` exactly
when `priceMin` is set (0 included, since the source tests
`!== undefined`), `price_max` exactly when `priceMax` is set, and an
absent filter contributes no key at all; concretely,
`brands=["nike","zara"], priceMin=1000` url-encodes to a body containing
`brand=%5B%22nike%22%2C%22zara%22%5D` and `price_min=1000` and no
`price_max`. -/
theorem C6_filter_encoding (s : SessionState) :
    List.lookup "brand" (filterFields s)
      = (if s.selectedBrands.isEmpty then none
         else some (JsVal.str (jsonStringifyStrList s.selectedBrands))) ∧
    List.lookup "price_min" (filterFields s) = s.priceMin.map JsVal.num ∧
    List.lookup "price_max" (filterFields s) = s.priceMax.map JsVal.num ∧
    toUrlEncoded (textRequestFields c6_state 0)
      = "search_type=text_search&query=dress&offset=0&limit=20&search_id=sid-1&brand=%5B%22nike%22%2C%22zara%22%5D&price_min=1000" ∧
    List.lookup "price_max" (textRequestFields c6_state 0) = none := by
  refine ⟨?_, ?_, ?_, by decide, by decide⟩ <;>
    (cases hb : s.selectedBrands <;> cases hmin : s.priceMin <;>
      cases hmax : s.priceMax <;> simp [filterFields, hb, hmin, hmax, List.lookup])

/-- C7: `openDetail` reads only index 0 of the detail endpoint's `data`
collection (the tail is irrelevant, and an absent collection behaves
like an empty one), takes the similar-items collection as-is with `[]`
when absent, and an empty `data` collection leaves `detailProduct`
unchanged with no error raised. -/
theorem C7_detail_uses_only_first (s : SessionState) (hash : String)
    (first : Product) (rest l : List Product)
    (dj : DetailJson) (sj : SimilarJson) (sim : SimilarOutcome) :
    openDetail s hash (.success { data := some (first :: rest) }) sim
      = openDetail s hash (.success { data := some [first] }) sim ∧
    openDetail s hash (.success { data := none }) sim
      = openDetail s hash (.success { data := some [] }) sim ∧
    (openDetail s hash (.success dj)
        (.success { similar_product_results := none })).1.similarProducts = [] ∧
    (openDetail s hash (.success dj)
        (.success { similar_product_results := some l })).1.similarProducts = l ∧
    (openDetail s hash (.success { data := some [] })
        (.success sj)).1.detailProduct = s.detailProduct ∧
    (openDetail s hash (.success { data := some [] })
        (.success sj)).1.error = none := by
  refine ⟨?_, ?_, ?_, ?_, rfl, rfl⟩
  · cases sim <;> rfl
  · cases sim <;> rfl
  · unfold openDetail
    cases hh : (dj.data.getD []).head? <;> simp [hh]
  · unfold openDetail
    cases hh : (dj.data.getD []).head? <;> simp [hh]

end Shoppin
